import Mathlib

/-!
Verification of the subwoofer audio-to-haptics pipeline (`src/main.rs`).

The development shallowly embeds the durable core of the program:
the signal conditioner `audio_transform_fn`, the bounded sample channel
with its non-blocking `try_send`, the batch aggregation and clamping of
`run_vibration_logic`, the dispatch loop with its two exit paths, the
surrounding session routine, and the process-level `main` that spawns the
session on its own thread next to the GUI.

Floating-point amplitudes are modelled as rationals (exact arithmetic),
fallible external calls (connect, scan, vibrate, disconnect) as boolean
outcomes supplied by an environment, and the asynchronous dispatch loop as
a total function over a finite stream of per-cycle events.  The external
lowpass filter crate is not part of this repository, so frames are taken
post-filter wherever the source consumes filtered data.
-/

namespace Subwoofer

/-- Batch and channel capacity (`SAMPLE_LIMIT`, main.rs line 20). -/
def SAMPLE_LIMIT : Nat := 16

/-- Tunable settings shared with the control panel (`AppSettings`,
main.rs lines 34-39): vibration intensity (gain), instruction delay in
milliseconds, and the minimum threshold gate. -/
structure AppSettings where
  intensity : ℚ
  delay_ms : Nat
  threshold : ℚ

/-- Default settings: intensity 10.0, delay 35 ms, threshold 0.005
(main.rs lines 41-49). -/
def defaultSettings : AppSettings :=
  ⟨10, 35, 5 / 1000⟩

/-- Representative amplitude of a filtered frame: its last sample, or 0 for
an empty frame (`raw_values.last().unwrap_or(&0.0)`, main.rs line 125). -/
def representative (filtered : List ℚ) : ℚ :=
  filtered.getLast?.getD 0

/-- Scalar conditioned sample computed by `audio_transform_fn`
(main.rs lines 125-130): the absolute value of the representative sample is
zeroed when below `threshold`, and the result is multiplied by `intensity`
(the multiplication happens on both branches of the gate). -/
def vibration_value (s intensity threshold : ℚ) : ℚ :=
  (if |s| < threshold then 0 else |s|) * intensity

/-- Non-blocking send (`tx.try_send`, main.rs line 132) into the bounded
mpsc channel of capacity `SAMPLE_LIMIT` (main.rs line 171).  The channel is
modelled as a FIFO list with the oldest element in front: the sample is
appended when the queue has room and silently dropped otherwise. -/
def try_send (q : List ℚ) (x : ℚ) : List ℚ :=
  if q.length < SAMPLE_LIMIT then q ++ [x] else q

/-- Element-wise display conditioning of the visualizer frame
(main.rs lines 138-149): a sample whose magnitude is below `threshold`
becomes 0, any other sample is scaled by `intensity`. -/
def display_condition (s intensity threshold : ℚ) : ℚ :=
  if |s| < threshold then 0 else s * intensity

/-- The whole frame returned to the visualizer (main.rs lines 138-152). -/
def display_frame (filtered : List ℚ) (intensity threshold : ℚ) : List ℚ :=
  filtered.map fun s => display_condition s intensity threshold

/-- `audio_transform_fn` (main.rs lines 108-153) after the external lowpass
filter: from the filtered frame, the settings snapshot and the current
channel contents it produces the new channel contents (the `try_send` whose
result is discarded) and the frame handed back to the visualizer. -/
def audio_transform_fn (filtered : List ℚ) (st : AppSettings) (q : List ℚ) :
    List ℚ × List ℚ :=
  (try_send q (vibration_value (representative filtered) st.intensity st.threshold),
   display_frame filtered st.intensity st.threshold)

/-- Gate/gain rule as the spec states it (section 4.1): every sample below
the threshold is zeroed, every sample at or above it is scaled by the
intensity.  Kept separate from `display_condition` so the two can be
compared as a refinement. -/
def spec_gate_gain (s intensity threshold : ℚ) : ℚ :=
  if |s| < threshold then 0 else s * intensity

/-- Arithmetic mean of a drained batch (`mean_value`, main.rs lines
205-210): `sum / len` when at least one sample was drained, 0 otherwise. -/
def mean_value (collected_values : List ℚ) : ℚ :=
  if 0 < collected_values.length then
    collected_values.sum / (collected_values.length : ℚ)
  else 0

/-- Clamped command intensity (`computed_intensity`, main.rs line 212). -/
def computed_intensity (collected_values : List ℚ) : ℚ :=
  min (mean_value collected_values) 1

/-- One dispatch cycle's interaction with the environment: the batch that
`recv_many` drains (`[]` exactly when the channel is closed, main.rs line
200) and whether that cycle's `vibrate` call succeeds (main.rs line 214). -/
structure CycleEvent where
  received : List ℚ
  sendOk : Bool

/-- Why the dispatch loop exited: channel closure (main.rs lines 200-203)
or a failed vibrate command (main.rs lines 214-217). -/
inductive ExitReason where
  | channelClosed
  | sendFailed

/-- The dispatch loop (main.rs lines 198-221) over a finite stream of cycle
events.  Returns the commands whose send was attempted, in order, and the
exit reason; `none` means the event stream ran out with the loop still
live (the loop itself has no other way to stop). -/
def runLoop : List CycleEvent → List ℚ × Option ExitReason
  | [] => ([], none)
  | e :: rest =>
    if e.received = [] then ([], some ExitReason.channelClosed)
    else
      let cmd := computed_intensity e.received
      if e.sendOk then
        let r := runLoop rest
        (cmd :: r.1, r.2)
      else
        ([cmd], some ExitReason.sendFailed)

/-- Errors `run_vibration_logic` returns through `?` (main.rs lines
160-163 and 224). -/
inductive SessionError where
  | connectFailed
  | startScanFailed
  | stopScanFailed
  | disconnectFailed

/-- Panics of the session thread: no actuator found (main.rs line 167) and
no audio output device (`assert!` in `select_output_dev`, main.rs line
250). -/
inductive PanicKind where
  | noButtplugDevice
  | noAudioOutputDevice

/-- How the session routine ended: a normal return, an `Err` propagated to
its caller, or a panic unwinding the session thread. -/
inductive SessionOutcome where
  | ok
  | error (e : SessionError)
  | panicked (k : PanicKind)

/-- Environment of one run of `run_vibration_logic`: outcomes of the
fallible external calls, the device counts the scans and the audio host
report, and the event stream feeding the dispatch loop. -/
structure SessionEnv where
  connectOk : Bool
  startScanOk : Bool
  stopScanOk : Bool
  devicesFound : Nat
  audioDevices : Nat
  events : List CycleEvent
  disconnectOk : Bool

/-- Observable result of the session routine: the commands whose send was
attempted, whether the disconnect call was reached, and the routine's
outcome (`none` while it is still inside the loop). -/
structure SessionResult where
  dispatched : List ℚ
  disconnectAttempted : Bool
  outcome : Option SessionOutcome

/-- `run_vibration_logic` (main.rs lines 155-227): connect, start and stop
scanning (each `?`-propagated), pick the first device (`panic!` when none
was found), select the audio device (`assert!` panics when none exists),
run the dispatch loop, and on loop exit disconnect — a disconnect failure
is propagated with `?` as the routine's own error (main.rs line 224). -/
def run_vibration_logic (env : SessionEnv) : SessionResult :=
  if env.connectOk = false then
    ⟨[], false, some (SessionOutcome.error SessionError.connectFailed)⟩
  else if env.startScanOk = false then
    ⟨[], false, some (SessionOutcome.error SessionError.startScanFailed)⟩
  else if env.stopScanOk = false then
    ⟨[], false, some (SessionOutcome.error SessionError.stopScanFailed)⟩
  else if env.devicesFound = 0 then
    ⟨[], false, some (SessionOutcome.panicked PanicKind.noButtplugDevice)⟩
  else if env.audioDevices = 0 then
    ⟨[], false, some (SessionOutcome.panicked PanicKind.noAudioOutputDevice)⟩
  else
    let r := runLoop env.events
    match r.2 with
    | none => ⟨r.1, false, none⟩
    | some _ =>
      ⟨r.1, true,
        some (if env.disconnectOk then SessionOutcome.ok
              else SessionOutcome.error SessionError.disconnectFailed)⟩

/-- The startup phase succeeded: the connect and scan calls returned Ok and
at least one actuator and one audio output device exist
(main.rs lines 159-184). -/
def setupOk (env : SessionEnv) : Prop :=
  env.connectOk = true ∧ env.startScanOk = true ∧ env.stopScanOk = true ∧
  0 < env.devicesFound ∧ 0 < env.audioDevices

/-- What `main` observes (main.rs lines 77-102). -/
structure MainResult where
  loggedVibrationFailure : Bool
  exitCode : Nat

/-- `main` (main.rs lines 77-102): the session runs on a spawned thread;
an `Err` outcome is only printed there (main.rs lines 84-86) and a panic
only unwinds that thread, while the process exit status is determined
solely by `eframe::run_native` on the main thread (main.rs lines 95-101):
0 when the GUI closes normally, nonzero only on a GUI error. -/
def mainProgram (env : SessionEnv) (guiOk : Bool) : MainResult :=
  let logged :=
    match (run_vibration_logic env).outcome with
    | some (SessionOutcome.error _) => true
    | some (SessionOutcome.panicked _) => true
    | _ => false
  ⟨logged, if guiOk then 0 else 1⟩

/-! ## Helper lemmas -/

/-- A conditioned sample is nonnegative whenever the intensity is. -/
lemma vibration_value_nonneg (s i t : ℚ) (hi : 0 ≤ i) :
    0 ≤ vibration_value s i t := by
  unfold vibration_value
  refine mul_nonneg ?_ hi
  split
  · exact le_refl 0
  · exact abs_nonneg s

/-- The mean of a list of nonnegative rationals is nonnegative. -/
lemma mean_value_nonneg (l : List ℚ) (h : ∀ x ∈ l, 0 ≤ x) :
    0 ≤ mean_value l := by
  unfold mean_value
  split
  · exact div_nonneg (List.sum_nonneg h) (Nat.cast_nonneg _)
  · exact le_refl 0

/-- A prefix of cycles that each drain a nonempty batch and send
successfully contributes its commands and leaves the rest of the loop
unchanged. -/
lemma runLoop_append_ok (pre : List CycleEvent)
    (hpre : ∀ ev ∈ pre, ev.received ≠ [] ∧ ev.sendOk = true)
    (tail : List CycleEvent) :
    runLoop (pre ++ tail) =
      ((pre.map fun ev => computed_intensity ev.received) ++ (runLoop tail).1,
        (runLoop tail).2) := by
  induction pre with
  | nil => simp [runLoop]
  | cons e pre ih =>
    obtain ⟨hne, hok⟩ := hpre e (by simp)
    have ihr := ih fun ev hev => hpre ev (by simp [hev])
    simp [runLoop, hne, hok, ihr]

/-- With a successful setup the session reduces to the loop followed by the
disconnect. -/
lemma run_vibration_logic_of_setup (env : SessionEnv) (h : setupOk env) :
    run_vibration_logic env =
      (match (runLoop env.events).2 with
       | none => ⟨(runLoop env.events).1, false, none⟩
       | some _ =>
         ⟨(runLoop env.events).1, true,
           some (if env.disconnectOk then SessionOutcome.ok
                 else SessionOutcome.error SessionError.disconnectFailed)⟩) := by
  obtain ⟨h1, h2, h3, h4, h5⟩ := h
  unfold run_vibration_logic
  rw [h1, h2, h3]
  simp [Nat.pos_iff_ne_zero.mp h4, Nat.pos_iff_ne_zero.mp h5]

/-! ## Claims -/

/-- C1: for every (nonempty) batch drained in a dispatch cycle, the command
the cycle attempts to send is `computed_intensity`, which equals
`min(mean, 1)`; and when the settings intensity is nonnegative — so every
conditioned sample in the batch is nonnegative — that command lies in
`[0, 1]`. -/
theorem dispatched_intensity_clamped (st : AppSettings) (hi : 0 ≤ st.intensity)
    (e : CycleEvent) (rest : List CycleEvent) (hne : e.received ≠ [])
    (hb : ∀ x ∈ e.received, ∃ s, x = vibration_value s st.intensity st.threshold) :
    (runLoop (e :: rest)).1.head? = some (computed_intensity e.received) ∧
    computed_intensity e.received = min (mean_value e.received) 1 ∧
    0 ≤ computed_intensity e.received ∧ computed_intensity e.received ≤ 1 := by
  have hnn : ∀ x ∈ e.received, (0 : ℚ) ≤ x := by
    intro x hx
    obtain ⟨s, rfl⟩ := hb x hx
    exact vibration_value_nonneg _ _ _ hi
  refine ⟨?_, rfl, le_min (mean_value_nonneg _ hnn) (by norm_num), min_le_right _ _⟩
  by_cases hs : e.sendOk <;> simp [runLoop, hne, hs]

/-- Witness for C1 at the default settings and the one-sample batch `[5]`,
each sample the conditioned image of the raw amplitude `1/2`. -/
theorem dispatched_intensity_clamped_witness :
    (runLoop (CycleEvent.mk [5] true :: [])).1.head? = some (computed_intensity [5]) ∧
    computed_intensity [5] = min (mean_value [5]) 1 ∧
    0 ≤ computed_intensity [5] ∧ computed_intensity [5] ≤ 1 :=
  dispatched_intensity_clamped defaultSettings (by decide)
    (CycleEvent.mk [5] true) [] (by decide)
    (by
      intro x hx
      refine ⟨1 / 2, ?_⟩
      have hx5 : x = 5 := by simpa using hx
      have habs : |(1 : ℚ) / 2| = 1 / 2 := abs_of_pos (by norm_num)
      rw [hx5]
      simp only [vibration_value, defaultSettings, habs]
      norm_num)

/-- C2: the scalar conditioned sample is exactly 0 when the magnitude of
the representative (last filtered) sample is below the gate, equals
`|s| * intensity` when at or above it, and in that case is monotonically
non-decreasing in the intensity. -/
theorem conditioner_gate_and_gain (filtered : List ℚ) (t i i' : ℚ)
    (hmono : i ≤ i') :
    (|representative filtered| < t →
      vibration_value (representative filtered) i t = 0) ∧
    (t ≤ |representative filtered| →
      vibration_value (representative filtered) i t = |representative filtered| * i ∧
      vibration_value (representative filtered) i t ≤
        vibration_value (representative filtered) i' t) := by
  constructor
  · intro h
    simp [vibration_value, h]
  · intro h
    have hlt : ¬ |representative filtered| < t := not_lt.mpr h
    refine ⟨by simp [vibration_value, hlt], ?_⟩
    simp only [vibration_value, if_neg hlt]
    exact mul_le_mul_of_nonneg_left hmono (abs_nonneg _)

/-- Witness for C2 on the frame `[1/2]` with gate `1/100` and intensities
`1 ≤ 2`. -/
theorem conditioner_gate_and_gain_witness :
    (1 : ℚ) ≤ 2 ∧
    ((|representative [(1 : ℚ) / 2]| < 1 / 100 →
        vibration_value (representative [(1 : ℚ) / 2]) 1 (1 / 100) = 0) ∧
      (1 / 100 ≤ |representative [(1 : ℚ) / 2]| →
        vibration_value (representative [(1 : ℚ) / 2]) 1 (1 / 100) =
          |representative [(1 : ℚ) / 2]| * 1 ∧
        vibration_value (representative [(1 : ℚ) / 2]) 1 (1 / 100) ≤
          vibration_value (representative [(1 : ℚ) / 2]) 2 (1 / 100))) :=
  ⟨by norm_num, conditioner_gate_and_gain [(1 : ℚ) / 2] (1 / 100) 1 2 (by norm_num)⟩

/-- C3: the aggregated value of a cycle is the arithmetic mean `sum / k`
of the `k ≥ 1` drained samples, and 0 when no samples were drained. -/
theorem aggregation_arithmetic_mean (collected_values : List ℚ) :
    (1 ≤ collected_values.length →
      mean_value collected_values =
        collected_values.sum / (collected_values.length : ℚ)) ∧
    (collected_values.length = 0 → mean_value collected_values = 0) := by
  constructor
  · intro h
    simp [mean_value, Nat.lt_of_lt_of_le Nat.zero_lt_one h]
  · intro h
    simp [mean_value, h]

/-- Witness for C3 on the batch `[2, 4]` (mean 3) and the empty batch. -/
theorem aggregation_arithmetic_mean_witness :
    (mean_value [2, 4] = ([2, 4] : List ℚ).sum / (([2, 4] : List ℚ).length : ℚ) ∧
      mean_value ([] : List ℚ) = 0) :=
  ⟨(aggregation_arithmetic_mean [2, 4]).1 (by decide),
    (aggregation_arithmetic_mean []).2 rfl⟩

/-- C4: when the vibrate send of cycle `N` fails (after `N` cycles that each
drained a nonempty batch and sent successfully), the loop result does not
depend on any event after the failing cycle — no retry and no cycle `N+1` —
exactly `N+1` sends were attempted, the loop exits with `sendFailed`, and
the session routine goes on to attempt the disconnect. -/
theorem send_failure_ends_session
    (pre : List CycleEvent) (hpre : ∀ ev ∈ pre, ev.received ≠ [] ∧ ev.sendOk = true)
    (e : CycleEvent) (hne : e.received ≠ []) (hfail : e.sendOk = false)
    (rest rest' : List CycleEvent)
    (env : SessionEnv) (hev : env.events = pre ++ e :: rest) (hsetup : setupOk env) :
    runLoop (pre ++ e :: rest) = runLoop (pre ++ e :: rest') ∧
    (runLoop (pre ++ e :: rest)).1.length = pre.length + 1 ∧
    (runLoop (pre ++ e :: rest)).2 = some ExitReason.sendFailed ∧
    (run_vibration_logic env).disconnectAttempted = true := by
  have hstep : ∀ tail, runLoop (e :: tail) =
      ([computed_intensity e.received], some ExitReason.sendFailed) := by
    intro tail
    simp [runLoop, hne, hfail]
  have hfull : ∀ tail, runLoop (pre ++ e :: tail) =
      ((pre.map fun ev => computed_intensity ev.received) ++
          [computed_intensity e.received],
        some ExitReason.sendFailed) := by
    intro tail
    rw [runLoop_append_ok pre hpre (e :: tail), hstep tail]
  refine ⟨by rw [hfull rest, hfull rest'], by rw [hfull rest]; simp, ?_, ?_⟩
  · rw [hfull rest]
  · rw [run_vibration_logic_of_setup env hsetup, hev, hfull rest]

/-- Environment for the C4 witness: the first cycle's send fails, the
second cycle would have succeeded but is never reached. -/
def envC4 : SessionEnv :=
  SessionEnv.mk true true true 1 1
    [CycleEvent.mk [5] false, CycleEvent.mk [3] true] true

/-- Witness for C4: in `envC4` the send of the first batch `[5]` fails,
exactly one send is attempted and the disconnect is reached. -/
theorem send_failure_ends_session_witness :
    runLoop (([] : List CycleEvent) ++ CycleEvent.mk [5] false :: [CycleEvent.mk [3] true]) =
      runLoop (([] : List CycleEvent) ++ CycleEvent.mk [5] false :: []) ∧
    (runLoop (([] : List CycleEvent) ++ CycleEvent.mk [5] false :: [CycleEvent.mk [3] true])).1.length =
      ([] : List CycleEvent).length + 1 ∧
    (runLoop (([] : List CycleEvent) ++ CycleEvent.mk [5] false :: [CycleEvent.mk [3] true])).2 =
      some ExitReason.sendFailed ∧
    (run_vibration_logic envC4).disconnectAttempted = true :=
  send_failure_ends_session [] (by simp) (CycleEvent.mk [5] false) (by decide) rfl
    [CycleEvent.mk [3] true] [] envC4 rfl
    ⟨rfl, rfl, rfl, Nat.zero_lt_one, Nat.zero_lt_one⟩

/-- C5 (amended): on every exit of the dispatch loop, normal or error, the
disconnect is attempted; a failure of the disconnect itself is propagated
as the error result of the session routine — which the spawning thread then
logs — while a successful disconnect yields a normal return. -/
theorem disconnect_attempted_and_propagated (env : SessionEnv) (hsetup : setupOk env)
    (r : ExitReason) (hexit : (runLoop env.events).2 = some r) :
    (run_vibration_logic env).disconnectAttempted = true ∧
    (env.disconnectOk = false →
      (run_vibration_logic env).outcome =
        some (SessionOutcome.error SessionError.disconnectFailed) ∧
      ∀ guiOk, (mainProgram env guiOk).loggedVibrationFailure = true) ∧
    (env.disconnectOk = true →
      (run_vibration_logic env).outcome = some SessionOutcome.ok) := by
  have hrv : run_vibration_logic env =
      ⟨(runLoop env.events).1, true,
        some (if env.disconnectOk then SessionOutcome.ok
              else SessionOutcome.error SessionError.disconnectFailed)⟩ := by
    rw [run_vibration_logic_of_setup env hsetup, hexit]
  refine ⟨by rw [hrv], ?_, ?_⟩
  · intro hd
    refine ⟨by rw [hrv]; simp [hd], ?_⟩
    intro guiOk
    simp [mainProgram, hrv, hd]
  · intro hd
    rw [hrv]
    simp [hd]

/-- Environment for C5: the channel closes on the first cycle and the
disconnect call then fails. -/
def envC5 : SessionEnv :=
  SessionEnv.mk true true true 1 1 [CycleEvent.mk [] true] false

/-- C5 counterexample: with a successfully set-up session whose channel
closes immediately and whose disconnect call fails, the session routine
returns the disconnect failure as its own error result — the failure is
propagated, not absorbed, refuting the claim that it is never propagated
as an error of the session routine. -/
theorem disconnect_failure_propagates_counterexample :
    (run_vibration_logic envC5).disconnectAttempted = true ∧
    (run_vibration_logic envC5).outcome =
      some (SessionOutcome.error SessionError.disconnectFailed) :=
  ⟨rfl, rfl⟩

/-- Witness for the amended C5 at `envC5`. -/
theorem disconnect_attempted_and_propagated_witness :
    (run_vibration_logic envC5).disconnectAttempted = true ∧
    (envC5.disconnectOk = false →
      (run_vibration_logic envC5).outcome =
        some (SessionOutcome.error SessionError.disconnectFailed) ∧
      ∀ guiOk, (mainProgram envC5 guiOk).loggedVibrationFailure = true) ∧
    (envC5.disconnectOk = true →
      (run_vibration_logic envC5).outcome = some SessionOutcome.ok) :=
  disconnect_attempted_and_propagated envC5
    ⟨rfl, rfl, rfl, Nat.zero_lt_one, Nat.zero_lt_one⟩
    ExitReason.channelClosed rfl

/-- C6: when the channel closes (an empty drain) after a prefix of normal
cycles, the loop exits in that same cycle with reason `channelClosed` —
dispatching nothing further — the disconnect is reached, and with a
successful disconnect the routine returns Ok: closure is clean
termination, not an error. -/
theorem channel_close_clean_shutdown
    (pre : List CycleEvent) (hpre : ∀ ev ∈ pre, ev.received ≠ [] ∧ ev.sendOk = true)
    (e : CycleEvent) (he : e.received = []) (rest : List CycleEvent)
    (env : SessionEnv) (hev : env.events = pre ++ e :: rest) (hsetup : setupOk env) :
    (runLoop env.events).2 = some ExitReason.channelClosed ∧
    (runLoop env.events).1.length = pre.length ∧
    (run_vibration_logic env).disconnectAttempted = true ∧
    (env.disconnectOk = true →
      (run_vibration_logic env).outcome = some SessionOutcome.ok) := by
  have hstep : runLoop (e :: rest) = ([], some ExitReason.channelClosed) := by
    simp [runLoop, he]
  have hfull : runLoop env.events =
      ((pre.map fun ev => computed_intensity ev.received),
        some ExitReason.channelClosed) := by
    rw [hev, runLoop_append_ok pre hpre (e :: rest), hstep]
    simp
  have hrv : run_vibration_logic env =
      ⟨pre.map fun ev => computed_intensity ev.received, true,
        some (if env.disconnectOk then SessionOutcome.ok
              else SessionOutcome.error SessionError.disconnectFailed)⟩ := by
    rw [run_vibration_logic_of_setup env hsetup, hfull]
  refine ⟨by rw [hfull], by rw [hfull]; simp, by rw [hrv], ?_⟩
  intro hd
  rw [hrv]
  simp [hd]

/-- Environment for the C6 witness: one normal cycle, then the channel
closes, and the disconnect succeeds. -/
def envC6 : SessionEnv :=
  SessionEnv.mk true true true 1 1
    [CycleEvent.mk [1] true, CycleEvent.mk [] true] true

/-- Witness for C6 at `envC6`. -/
theorem channel_close_clean_shutdown_witness :
    (runLoop envC6.events).2 = some ExitReason.channelClosed ∧
    (runLoop envC6.events).1.length = [CycleEvent.mk [1] true].length ∧
    (run_vibration_logic envC6).disconnectAttempted = true ∧
    (envC6.disconnectOk = true →
      (run_vibration_logic envC6).outcome = some SessionOutcome.ok) :=
  channel_close_clean_shutdown [CycleEvent.mk [1] true] (by simp)
    (CycleEvent.mk [] true) rfl [] envC6 rfl
    ⟨rfl, rfl, rfl, Nat.zero_lt_one, Nat.zero_lt_one⟩

/-- C7: the frame returned for visualization applies the spec's gate/gain
rule element-wise — magnitudes below the gate become 0, all other samples
are scaled by the intensity — and the scalar path computes exactly that
rule on the magnitude of its representative sample, so the display
conditioning and the scalar `ConditionedSample` share identical gate/gain
semantics. -/
theorem display_conditioning_matches_scalar (filtered : List ℚ) (i t : ℚ) :
    display_frame filtered i t = filtered.map (fun s => spec_gate_gain s i t) ∧
    (∀ s, |s| < t → display_condition s i t = 0) ∧
    (∀ s, t ≤ |s| → display_condition s i t = s * i) ∧
    (∀ s, vibration_value s i t = spec_gate_gain |s| i t) := by
  refine ⟨rfl, ?_, ?_, ?_⟩
  · intro s h
    simp [display_condition, h]
  · intro s h
    simp [display_condition, not_lt.mpr h]
  · intro s
    by_cases h : |s| < t
    · simp [vibration_value, spec_gate_gain, abs_abs, h]
    · simp [vibration_value, spec_gate_gain, abs_abs, h]

/-- Witness for C7 on the frame `[1/2, 1/50]` with intensity 2 and gate
`1/10`: the small sample is zeroed, the large one is scaled. -/
theorem display_conditioning_matches_scalar_witness :
    display_frame [(1 : ℚ) / 2, 1 / 50] 2 (1 / 10) =
      ([(1 : ℚ) / 2, 1 / 50]).map (fun s => spec_gate_gain s 2 (1 / 10)) ∧
    display_condition ((1 : ℚ) / 50) 2 (1 / 10) = 0 ∧
    display_condition ((1 : ℚ) / 2) 2 (1 / 10) = (1 : ℚ) / 2 * 2 ∧
    vibration_value ((1 : ℚ) / 2) 2 (1 / 10) =
      spec_gate_gain |(1 : ℚ) / 2| 2 (1 / 10) := by
  obtain ⟨h1, h2, h3, h4⟩ :=
    display_conditioning_matches_scalar [(1 : ℚ) / 2, 1 / 50] 2 (1 / 10)
  have ha : |(1 : ℚ) / 50| = 1 / 50 := abs_of_pos (by norm_num)
  have hb : |(1 : ℚ) / 2| = 1 / 2 := abs_of_pos (by norm_num)
  exact ⟨h1, h2 (1 / 50) (by rw [ha]; norm_num),
    h3 (1 / 2) (by rw [hb]; norm_num), h4 (1 / 2)⟩

/-- C8: the producer's send is non-blocking: when the channel is full the
new sample is dropped, the channel contents are unchanged, and the frame
the callback hands back to the driver is the same whatever the channel
state — no error is surfaced and the producer proceeds. -/
theorem backpressure_drop_nonblocking (q : List ℚ) (hfull : q.length = SAMPLE_LIMIT)
    (x : ℚ) (filtered : List ℚ) (st : AppSettings) :
    try_send q x = q ∧
    (audio_transform_fn filtered st q).1 = q ∧
    (∀ q' : List ℚ,
      (audio_transform_fn filtered st q').2 = (audio_transform_fn filtered st q).2) := by
  have h : ¬ q.length < SAMPLE_LIMIT := by
    rw [hfull]
    exact lt_irrefl _
  exact ⟨by simp [try_send, h], by simp [audio_transform_fn, try_send, h],
    fun q' => rfl⟩

/-- Witness for C8 on a full channel of sixteen zero samples. -/
theorem backpressure_drop_nonblocking_witness :
    try_send (List.replicate 16 (0 : ℚ)) 7 = List.replicate 16 (0 : ℚ) ∧
    (audio_transform_fn [1] defaultSettings (List.replicate 16 (0 : ℚ))).1 =
      List.replicate 16 (0 : ℚ) ∧
    (∀ q' : List ℚ,
      (audio_transform_fn [1] defaultSettings q').2 =
        (audio_transform_fn [1] defaultSettings (List.replicate 16 (0 : ℚ))).2) :=
  backpressure_drop_nonblocking (List.replicate 16 (0 : ℚ)) rfl 7 [1] defaultSettings

/-- Environment for the C9 counterexample: the connection to the actuator
service fails at startup. -/
def envC9 : SessionEnv := SessionEnv.mk false true true 1 1 [] true

/-- C9 counterexample: when the actuator connection fails at startup, the
session routine ends with that error and the spawned thread logs it, yet
the process exit code is 0 once the GUI closes normally — the run is not
terminated with a non-zero status, refuting the claim. -/
theorem startup_failure_exit_code_counterexample :
    (run_vibration_logic envC9).outcome =
      some (SessionOutcome.error SessionError.connectFailed) ∧
    (mainProgram envC9 true).loggedVibrationFailure = true ∧
    (mainProgram envC9 true).exitCode = 0 :=
  ⟨rfl, rfl, rfl⟩

/-- C9 (amended): every fatal startup error — connection failure, zero
devices found by the scan, or no audio output device — stops the session
before any command is dispatched and ends it with an error or panic
outcome, which the spawning thread reports as a diagnostic; but the
process itself keeps running the GUI and its exit status is determined by
the GUI alone, not by the startup failure. -/
theorem startup_failure_not_process_fatal (env : SessionEnv) (guiOk : Bool)
    (hfail : env.connectOk = false ∨ env.devicesFound = 0 ∨ env.audioDevices = 0) :
    (run_vibration_logic env).dispatched = [] ∧
    (∃ o, (run_vibration_logic env).outcome = some o ∧ o ≠ SessionOutcome.ok) ∧
    (mainProgram env guiOk).loggedVibrationFailure = true ∧
    (mainProgram env guiOk).exitCode = if guiOk then 0 else 1 := by
  have hbranch :
      run_vibration_logic env =
        ⟨[], false, some (SessionOutcome.error SessionError.connectFailed)⟩ ∨
      run_vibration_logic env =
        ⟨[], false, some (SessionOutcome.error SessionError.startScanFailed)⟩ ∨
      run_vibration_logic env =
        ⟨[], false, some (SessionOutcome.error SessionError.stopScanFailed)⟩ ∨
      run_vibration_logic env =
        ⟨[], false, some (SessionOutcome.panicked PanicKind.noButtplugDevice)⟩ ∨
      run_vibration_logic env =
        ⟨[], false, some (SessionOutcome.panicked PanicKind.noAudioOutputDevice)⟩ := by
    unfold run_vibration_logic
    by_cases h1 : env.connectOk = false
    · exact Or.inl (by simp [h1])
    · by_cases h2 : env.startScanOk = false
      · exact Or.inr (Or.inl (by simp [h1, h2]))
      · by_cases h3 : env.stopScanOk = false
        · exact Or.inr (Or.inr (Or.inl (by simp [h1, h2, h3])))
        · by_cases h4 : env.devicesFound = 0
          · exact Or.inr (Or.inr (Or.inr (Or.inl (by simp [h1, h2, h3, h4]))))
          · have h5 : env.audioDevices = 0 := by
              rcases hfail with h | h | h
              · exact absurd h h1
              · exact absurd h h4
              · exact h
            exact Or.inr (Or.inr (Or.inr (Or.inr (by simp [h1, h2, h3, h4, h5]))))
  rcases hbranch with h | h | h | h | h
  · exact ⟨by rw [h], ⟨SessionOutcome.error SessionError.connectFailed,
      by rw [h], by simp⟩, by simp [mainProgram, h], rfl⟩
  · exact ⟨by rw [h], ⟨SessionOutcome.error SessionError.startScanFailed,
      by rw [h], by simp⟩, by simp [mainProgram, h], rfl⟩
  · exact ⟨by rw [h], ⟨SessionOutcome.error SessionError.stopScanFailed,
      by rw [h], by simp⟩, by simp [mainProgram, h], rfl⟩
  · exact ⟨by rw [h], ⟨SessionOutcome.panicked PanicKind.noButtplugDevice,
      by rw [h], by simp⟩, by simp [mainProgram, h], rfl⟩
  · exact ⟨by rw [h], ⟨SessionOutcome.panicked PanicKind.noAudioOutputDevice,
      by rw [h], by simp⟩, by simp [mainProgram, h], rfl⟩

/-- Environment for the C9 witness: the scan finds zero devices. -/
def envC9b : SessionEnv := SessionEnv.mk true true true 0 1 [] true

/-- Witness for the amended C9 at `envC9b` with a failing GUI run. -/
theorem startup_failure_not_process_fatal_witness :
    (run_vibration_logic envC9b).dispatched = [] ∧
    (∃ o, (run_vibration_logic envC9b).outcome = some o ∧ o ≠ SessionOutcome.ok) ∧
    (mainProgram envC9b false).loggedVibrationFailure = true ∧
    (mainProgram envC9b false).exitCode = if false then 0 else 1 :=
  startup_failure_not_process_fatal envC9b false (Or.inr (Or.inl rfl))

/-- C10: with a nonnegative intensity and threshold, the scalar conditioned
sample of any frame is nonnegative — the representative value passes
through the absolute value before gate and gain — and a channel holding
only nonnegative values still does after the callback's send, so every
value the aggregator drains is nonnegative. -/
theorem conditioned_sample_nonneg (filtered : List ℚ) (st : AppSettings)
    (hi : 0 ≤ st.intensity) (_ht : 0 ≤ st.threshold) :
    0 ≤ vibration_value (representative filtered) st.intensity st.threshold ∧
    ∀ q : List ℚ, (∀ y ∈ q, 0 ≤ y) →
      ∀ y ∈ (audio_transform_fn filtered st q).1, 0 ≤ y := by
  refine ⟨vibration_value_nonneg _ _ _ hi, ?_⟩
  intro q hq y hy
  simp only [audio_transform_fn, try_send] at hy
  split at hy
  · rcases List.mem_append.mp hy with h | h
    · exact hq y h
    · have hy2 : y = vibration_value (representative filtered) st.intensity st.threshold := by
        simpa using h
      rw [hy2]
      exact vibration_value_nonneg _ _ _ hi
  · exact hq y hy

/-- Witness for C10 at the default settings on the frame `[1/2]` and the
empty channel. -/
theorem conditioned_sample_nonneg_witness :
    (0 ≤ vibration_value (representative [(1 : ℚ) / 2])
        defaultSettings.intensity defaultSettings.threshold ∧
      ∀ q : List ℚ, (∀ y ∈ q, 0 ≤ y) →
        ∀ y ∈ (audio_transform_fn [(1 : ℚ) / 2] defaultSettings q).1, 0 ≤ y) :=
  conditioned_sample_nonneg [(1 : ℚ) / 2] defaultSettings (by decide)
    (by norm_num [defaultSettings])

end Subwoofer
